import Mathlib

/-!
Shallow embedding of the storage-engine trace pipeline
(`src/health.rs`, `src/config.rs`, `src/storage/mod.rs`, `src/core.rs`,
`src/reader/mod.rs`) together with theorems settling the spec claims.

Machine integers (`u64`, `u128`) are modelled as `Nat` with explicit
reduction modulo `2 ^ 64` / bounds checks exactly where the Rust code
wraps or checks.
-/

deriving instance DecidableEq for Except

namespace StorageEngine

/-- Modulus of Rust's `u64`. -/
def U64 : Nat := 2 ^ 64

/-! ## Health aggregator (`src/health.rs`) -/

/-- State of `HealthCheck` (src/health.rs:8-19).  The Rust struct holds
atomics; a single-threaded shallow embedding carries the plain values. -/
structure HealthCheck where
  is_healthy : Bool
  last_successful_write : Nat
  message_queue_size : Nat
  total_messages_processed : Nat
  failed_writes : Nat
  deriving DecidableEq, Repr

/-- `HealthCheck::new` (src/health.rs:23-31). -/
def HealthCheck.new : HealthCheck :=
  { is_healthy := true
    last_successful_write := 0
    message_queue_size := 0
    total_messages_processed := 0
    failed_writes := 0 }

/-- `HealthCheck::update_status` (src/health.rs:34-36). -/
def HealthCheck.update_status (h : HealthCheck) (healthy : Bool) : HealthCheck :=
  { h with is_healthy := healthy }

/-- `HealthCheck::record_successful_write` (src/health.rs:39-58).
`now` is the wall-clock seconds value stored into `last_successful_write`
(the code's `SystemTime::now()` is an input here). -/
def HealthCheck.record_successful_write (h : HealthCheck) (now : Nat) : HealthCheck :=
  let h1 := { h with last_successful_write := now % U64 }
  let h2 := { h1 with total_messages_processed := (h1.total_messages_processed + 1) % U64 }
  if h2.failed_writes > 0 then
    ({ h2 with failed_writes := 0 }).update_status true
  else h2

/-- `HealthCheck::record_failed_write` (src/health.rs:61-69).
`fetch_add(1)` wraps at `2 ^ 64`. -/
def HealthCheck.record_failed_write (h : HealthCheck) : HealthCheck :=
  let failed := (h.failed_writes + 1) % U64
  let h1 := { h with failed_writes := failed }
  if failed > 5 then h1.update_status false else h1

/-- `HealthStatus` (src/health.rs:104-116). -/
structure HealthStatus where
  is_healthy : Bool
  last_write : Nat
  queue_size : Nat
  total_processed : Nat
  failed_writes : Nat
  deriving DecidableEq, Repr

/-- `HealthCheck::get_health_status` (src/health.rs:77-85). -/
def HealthCheck.get_health_status (h : HealthCheck) : HealthStatus :=
  { is_healthy := h.is_healthy
    last_write := h.last_successful_write
    queue_size := h.message_queue_size
    total_processed := h.total_messages_processed
    failed_writes := h.failed_writes }

/-! ## Configuration (`src/config.rs`) -/

/-- `ServerConfig` (src/config.rs:24-33). -/
structure ServerConfig where
  host : String
  port : Nat
  max_connections : Nat
  deriving DecidableEq, Repr

/-- `StorageConfig` (src/config.rs:36-45); `pfx` is the `prefix` field. -/
structure StorageConfig where
  bucket : String
  pfx : String
  region : String
  deriving DecidableEq, Repr

/-- `ProcessingConfig` (src/config.rs:48-54). -/
structure ProcessingConfig where
  batch_size : Nat
  batch_timeout_ms : Nat
  deriving DecidableEq, Repr

/-- `RetryConfig` (src/config.rs:57-65). -/
structure RetryConfig where
  max_retries : Nat
  initial_backoff_ms : Nat
  max_backoff_ms : Nat
  deriving DecidableEq, Repr

/-- `MetricsConfig` (src/config.rs:68-74). -/
structure MetricsConfig where
  enabled : Bool
  push_interval_ms : Nat
  deriving DecidableEq, Repr

/-- `Config` (src/config.rs:9-21). -/
structure Config where
  server : ServerConfig
  storage : StorageConfig
  processing : ProcessingConfig
  retry : RetryConfig
  metrics : MetricsConfig
  deriving DecidableEq, Repr

/-- `ConfigError` (src/error.rs). -/
inductive ConfigError where
  | InvalidValue : String → ConfigError
  | MissingField : String → ConfigError
  | InvalidFormat : String → ConfigError
  deriving DecidableEq, Repr

/-- `Config::validate` (src/config.rs:129-142).  Note: there is no check
of `batch_timeout_ms` in the source. -/
def Config.validate (c : Config) : Except ConfigError Unit :=
  if c.processing.batch_size = 0 then
    .error (.InvalidValue "batch_size must be > 0")
  else if c.retry.max_retries = 0 then
    .error (.InvalidValue "max_retries must be > 0")
  else if c.retry.max_backoff_ms < c.retry.initial_backoff_ms then
    .error (.InvalidValue "max_backoff_ms must be >= initial_backoff_ms")
  else
    .ok ()

/-- `ProcessingConfig::default` (src/config.rs:164-171). -/
def ProcessingConfig.default : ProcessingConfig :=
  { batch_size := 100, batch_timeout_ms := 5000 }

/-- `RetryConfig::default` (src/config.rs:173-181). -/
def RetryConfig.default : RetryConfig :=
  { max_retries := 3, initial_backoff_ms := 100, max_backoff_ms := 1000 }

/-- `MetricsConfig::default` (src/config.rs:183-190). -/
def MetricsConfig.default : MetricsConfig :=
  { enabled := true, push_interval_ms := 10000 }

/-- A concrete configuration whose only spec-invalid field is
`batch_timeout_ms = 0`; every field the code does validate is valid. -/
def zeroTimeoutConfig : Config :=
  { server := { host := "0.0.0.0", port := 50051, max_connections := 1000 }
    storage := { bucket := "my-test-bucket", pfx := "messages", region := "us-east-1" }
    processing := { batch_size := 100, batch_timeout_ms := 0 }
    retry := RetryConfig.default
    metrics := MetricsConfig.default }

/-! ## Hex encoding and identifier parsing

`hex::encode` (the `hex` crate) and `TraceId::from_hex` /
`SpanId::from_hex` from the `opentelemetry` API, which are implemented
as `u128::from_str_radix(hex, 16)` / `u64::from_str_radix(hex, 16)`.
`from_str_radix` accepts an optional leading `+`, rejects the empty
string, rejects non-digit characters, and fails with an overflow error
as soon as the accumulated value would exceed the integer's range. -/

/-- Value of a hex digit character (`char::to_digit(16)`). -/
def hexDigitVal (c : Char) : Option Nat :=
  if '0' ≤ c ∧ c ≤ '9' then some (c.toNat - '0'.toNat)
  else if 'a' ≤ c ∧ c ≤ 'f' then some (c.toNat - 'a'.toNat + 10)
  else if 'A' ≤ c ∧ c ≤ 'F' then some (c.toNat - 'A'.toNat + 10)
  else none

/-- Digit-accumulation loop of `uN::from_str_radix(_, 16)`; `bound` is
`2 ^ N`.  The checked multiply-add fails the moment the accumulator
would reach `bound`. -/
def parseHexAcc (bound : Nat) : List Char → Nat → Except String Nat
  | [], acc => .ok acc
  | c :: cs, acc =>
    match hexDigitVal c with
    | none => .error "invalid digit found in string"
    | some d =>
      if acc * 16 + d < bound then parseHexAcc bound cs (acc * 16 + d)
      else .error "number too large to fit in target type"

/-- The optional leading `+` sign accepted by `from_str_radix`. -/
def stripPlus : List Char → List Char
  | '+' :: rest => rest
  | cs => cs

/-- `uN::from_str_radix(s, 16)` with `bound = 2 ^ N`. -/
def from_str_radix16 (bound : Nat) (s : String) : Except String Nat :=
  let cs := stripPlus s.data
  if cs = [] then .error "cannot parse integer from empty string"
  else parseHexAcc bound cs 0

/-- `TraceId::from_hex` (opentelemetry API): `u128::from_str_radix`. -/
def TraceId.from_hex (s : String) : Except String Nat :=
  from_str_radix16 (2 ^ 128) s

/-- `SpanId::from_hex` (opentelemetry API): `u64::from_str_radix`. -/
def SpanId.from_hex (s : String) : Except String Nat :=
  from_str_radix16 (2 ^ 64) s

/-- `SpanId::INVALID` (the all-zero span id). -/
def SpanId.INVALID : Nat := 0

/-- `hex::encode` of one byte: two lowercase hex digits. -/
def hexEncodeByte (b : Nat) : List Char :=
  [Nat.digitChar (b / 16 % 16), Nat.digitChar (b % 16)]

/-- `hex::encode` of a byte sequence. -/
def hexEncode (bs : List Nat) : String :=
  ⟨(bs.map hexEncodeByte).flatten⟩

/-- Big-endian value of a byte sequence (the integer a `TraceId` /
`SpanId` holds after parsing the hex encoding of those bytes). -/
def beVal : List Nat → Nat
  | [] => 0
  | b :: bs => b * 256 ^ bs.length + beVal bs

/-- Rust `format!` with `{:0wx}` applied to an id value: lowercase hex
digits, zero-padded on the left to width `w` (the `Display` of
`TraceId` uses `w = 32`, that of `SpanId` uses `w = 16`). -/
def toHexPad (w : Nat) (v : Nat) : String :=
  let ds := Nat.toDigits 16 v
  ⟨List.replicate (w - ds.length) '0' ++ ds⟩

/-- `Display` of a `TraceId` value. -/
def traceIdDisplay (v : Nat) : String := toHexPad 32 v

/-- `Display` of a `SpanId` value. -/
def spanIdDisplay (v : Nat) : String := toHexPad 16 v

/-! ## Storage key scheme (`src/storage/mod.rs`) -/

/-- `str::trim_end_matches('/')`: strips every trailing `/`. -/
def trimEndSlashes (s : String) : String :=
  ⟨(s.data.reverse.dropWhile (fun c => c = '/')).reverse⟩

/-- `S3StorageWriter::get_full_key` (src/storage/mod.rs:120-126);
`pfx` is the writer's `prefix` field. -/
def get_full_key (pfx key : String) : String :=
  if pfx = "" then key
  else trimEndSlashes pfx ++ "/" ++ key

/-- The object key under which `S3StorageWriter::write_spans`
(src/storage/mod.rs:227-253) stores a span: it formats
`prefix/trace_id/span_id.json` itself and then passes that string to
`write`, which runs it through `get_full_key`. -/
def write_spans_key (pfx : String) (t s : Nat) : String :=
  let key := pfx ++ "/" ++ traceIdDisplay t ++ "/" ++ spanIdDisplay s ++ ".json"
  get_full_key pfx key

/-! ## Wire and internal span model -/

/-- Wire-format proto `Span` (OTLP `opentelemetry.proto.trace.v1.Span`,
the fields the engine touches plus the ones claim C9 says it discards;
id fields are raw byte sequences). -/
structure Span where
  trace_id : List Nat
  span_id : List Nat
  trace_state : String
  parent_span_id : List Nat
  name : String
  kind : Int
  start_time_unix_nano : Nat
  end_time_unix_nano : Nat
  attributes : List (String × String)
  events : List String
  links : List String
  status : Option String
  deriving DecidableEq, Repr

/-- `ScopeSpans` (OTLP proto). -/
structure ScopeSpans where
  spans : List Span
  deriving DecidableEq, Repr

/-- `ResourceSpans` (OTLP proto). -/
structure ResourceSpans where
  scope_spans : List ScopeSpans
  deriving DecidableEq, Repr

/-- `ExportTraceServiceRequest` (OTLP proto). -/
structure ExportTraceServiceRequest where
  resource_spans : List ResourceSpans
  deriving DecidableEq, Repr

/-- `opentelemetry::trace::SpanKind`. -/
inductive SpanKind where
  | Client
  | Server
  | Producer
  | Consumer
  | Internal
  deriving DecidableEq, Repr

/-- `opentelemetry::trace::Status`. -/
inductive Status where
  | Unset
  | ErrorDesc : String → Status
  | Ok
  deriving DecidableEq, Repr

/-- `EvictedHashMap` (opentelemetry sdk): bounded map with eviction
limit `max_len`; the library type does not store the allocation
capacity, so only the limit and the entries appear here. -/
structure EvictedHashMap where
  max_len : Nat
  entries : List (String × String)
  deriving DecidableEq, Repr

/-- `EvictedHashMap::new(max_len, capacity)` — the *first* argument is
the eviction limit; `capacity` only pre-sizes the backing
`HashMap::with_capacity` and does not affect the contents. -/
def EvictedHashMap.new (max_len _capacity : Nat) : EvictedHashMap :=
  { max_len := max_len, entries := [] }

/-- `EvictedQueue` (opentelemetry sdk): bounded queue with eviction
limit `max_len`. -/
structure EvictedQueue where
  max_len : Nat
  queue : List String
  deriving DecidableEq, Repr

/-- `EvictedQueue::new(max_len)`. -/
def EvictedQueue.new (max_len : Nat) : EvictedQueue :=
  { max_len := max_len, queue := [] }

/-- `opentelemetry::trace::SpanContext`: trace id / span id hold the
parsed `u128` / `u64` values. -/
structure SpanContext where
  trace_id : Nat
  span_id : Nat
  trace_flags : Nat
  is_remote : Bool
  trace_state : String
  deriving DecidableEq, Repr

/-- `opentelemetry::sdk::export::trace::SpanData` (the fields
`convert_span` fills; `resource` and `instrumentation_lib` are
defaulted in the source and abstracted to `Unit`). -/
structure SpanData where
  span_context : SpanContext
  parent_span_id : Nat
  span_kind : SpanKind
  name : String
  start_time : Nat
  end_time : Nat
  attributes : EvictedHashMap
  events : EvictedQueue
  links : EvictedQueue
  status : Status
  resource : Unit
  instrumentation_lib : Unit
  deriving DecidableEq, Repr

/-! ## Errors (`src/error.rs`) -/

/-- `ProcessingError` (src/error.rs). -/
inductive ProcessingError where
  | ValidationError : String → ProcessingError
  | ProcessingFailed : String → ProcessingError
  | StorageError : String → ProcessingError
  | RateLimitExceeded : String → ProcessingError
  | NotFound : String → ProcessingError
  | ShutdownError : String → ProcessingError
  deriving DecidableEq, Repr

/-- `StorageError` (src/error.rs). -/
inductive StorageError where
  | WriteFailed : String → StorageError
  | ConnectionError : String → StorageError
  | BatchWriteFailed : String → StorageError
  | ConfigError : String → StorageError
  | RetryLimitExceeded : String → StorageError
  | ReadFailed : String → StorageError
  deriving DecidableEq, Repr

/-- `Display` of `StorageError` (the `thiserror` format strings). -/
def StorageError.display : StorageError → String
  | .WriteFailed m => "Write failed: " ++ m
  | .ConnectionError m => "Connection failed: " ++ m
  | .BatchWriteFailed m => "Batch write failed: " ++ m
  | .ConfigError m => "Configuration error: " ++ m
  | .RetryLimitExceeded m => "Retry limit exceeded: " ++ m
  | .ReadFailed m => "Read failed: " ++ m

/-- `impl From<StorageError> for ProcessingError` (src/error.rs). -/
def ProcessingError.ofStorage : StorageEngine.StorageError → ProcessingError
  | .WriteFailed m => .StorageError ("Write failed: " ++ m)
  | .ConnectionError m => .StorageError ("Connection failed: " ++ m)
  | .BatchWriteFailed m => .StorageError ("Batch write failed: " ++ m)
  | .ConfigError m => .StorageError ("Config error: " ++ m)
  | .RetryLimitExceeded m => .StorageError ("Retry limit exceeded: " ++ m)
  | .ReadFailed m => .StorageError ("Read failed: " ++ m)

/-! ## Span conversion (`src/core.rs`) -/

/-- `EngineCore::create_span_context` (src/core.rs:170-180):
hex-encode the raw bytes, parse them back as a `TraceId` / `SpanId`,
mapping parse failures to `ValidationError`; flags and state are
defaulted. -/
def create_span_context (s : Span) : Except ProcessingError SpanContext :=
  match TraceId.from_hex (hexEncode s.trace_id) with
  | .error e => .error (.ValidationError e)
  | .ok t =>
    match SpanId.from_hex (hexEncode s.span_id) with
    | .error e => .error (.ValidationError e)
    | .ok sp =>
      .ok { trace_id := t, span_id := sp, trace_flags := 0,
            is_remote := false, trace_state := "" }

/-- The `let parent_span_id = if !span.parent_span_id.is_empty() ...`
binding at the top of `EngineCore::convert_span` (src/core.rs:144-149):
an empty `parent_span_id` becomes `SpanId::INVALID`, a non-empty one
must parse. -/
def parseParent (s : Span) : Except ProcessingError Nat :=
  if s.parent_span_id ≠ [] then
    match SpanId.from_hex (hexEncode s.parent_span_id) with
    | .error e => .error (ProcessingError.ValidationError e)
    | .ok v => .ok v
  else .ok SpanId.INVALID

/-- `EngineCore::convert_span` (src/core.rs:143-167): parse the parent
id, build the span context; kind, status, attributes, events and links
are hard-coded fresh values regardless of the wire span.  The
attributes map is `EvictedHashMap::new(Default::default(), 128)`:
`Default::default()` for the `u32` eviction limit is 0, and 128 is the
allocation capacity. -/
def convert_span (s : Span) : Except ProcessingError SpanData :=
  match parseParent s with
  | .error e => .error e
  | .ok parent =>
    match create_span_context s with
    | .error e => .error e
    | .ok ctx =>
      .ok { span_context := ctx
            parent_span_id := parent
            span_kind := .Client
            name := s.name
            start_time := s.start_time_unix_nano
            end_time := s.end_time_unix_nano
            attributes := EvictedHashMap.new 0 128
            events := EvictedQueue.new 128
            links := EvictedQueue.new 128
            status := .Ok
            resource := ()
            instrumentation_lib := () }

/-- The wire spans of a request in iteration order of the nested loops
of `convert_request_to_spans` (src/core.rs:131-137). -/
def requestSpans (r : ExportTraceServiceRequest) : List Span :=
  (r.resource_spans.map
    (fun rs => (rs.scope_spans.map (fun ss => ss.spans)).flatten)).flatten

/-- Conversion of a list of wire spans, aborting at the first failing
span (the `?` inside the loop of `convert_request_to_spans`). -/
def convertSpansList : List Span → Except ProcessingError (List SpanData)
  | [] => .ok []
  | s :: rest =>
    match convert_span s with
    | .error e => .error e
    | .ok d =>
      match convertSpansList rest with
      | .error e => .error e
      | .ok ds => .ok (d :: ds)

/-- `EngineCore::convert_request_to_spans` (src/core.rs:125-140). -/
def convert_request_to_spans (r : ExportTraceServiceRequest) :
    Except ProcessingError (List SpanData) :=
  convertSpansList (requestSpans r)

/-! ## Engine processing (`src/core.rs`) -/

/-- Calls made to the Health Aggregator by the engine
(`record_successful_write` / `record_failed_write`). -/
inductive HealthEvent where
  | success
  | failure
  deriving DecidableEq, Repr

/-- Observable outcome of `EngineCore::process_message`: its return
value, the span list handed to the storage port's `write_spans` (empty
when conversion fails and storage is never reached), and the sequence
of Health Aggregator calls made. -/
structure ProcOutcome where
  result : Except ProcessingError Unit
  sent : List SpanData
  health : List HealthEvent
  deriving DecidableEq, Repr

/-- `EngineCore::process_message` (src/core.rs:111-122), parameterized
by the storage port's `write_spans` behaviour (`storage`): convert the
request (`?` propagates conversion errors), write the spans (storage
errors are mapped through `Display` into
`ProcessingError::StorageError`), then — only on success —
`record_successful_write`. -/
def process_message (storage : List SpanData → Except StorageError Unit)
    (req : ExportTraceServiceRequest) : ProcOutcome :=
  match convert_request_to_spans req with
  | .error e => { result := .error e, sent := [], health := [] }
  | .ok spans =>
    match storage spans with
    | .error e =>
      { result := .error (.StorageError e.display), sent := spans, health := [] }
    | .ok _ =>
      { result := .ok (), sent := spans, health := [.success] }

/-- A storage port whose `write_spans` always succeeds. -/
def storageOk : List SpanData → Except StorageError Unit := fun _ => .ok ()

/-- `EngineCore::process_batch` (src/core.rs:98-108): `mem::take` the
queue and process every message in arrival order; per-message results
are only logged, so processing always continues to the next message. -/
def process_batch (storage : List SpanData → Except StorageError Unit)
    (queue : List ExportTraceServiceRequest) : List ProcOutcome :=
  queue.map (process_message storage)

/-- State of the `process_messages` loop (src/core.rs:69-95): the
accumulated queue and the instant of the next `batch_timer` tick. -/
structure LoopState where
  queue : List ExportTraceServiceRequest
  deadline : Nat
  deriving DecidableEq, Repr

/-- The two arms of the `tokio::select!`. -/
inductive LoopEvent where
  | tick
  | recv : ExportTraceServiceRequest → LoopEvent
  deriving DecidableEq, Repr

/-- Result of one loop iteration: the next state and, when
`process_batch` ran, the batch it drained. -/
structure StepOut where
  state : LoopState
  flushed : Option (List ExportTraceServiceRequest)
  deriving DecidableEq, Repr

/-- One iteration of the `process_messages` loop (src/core.rs:75-94).
`now` is the instant the event is handled.  A `tick` fires at
`s.deadline` and the interval schedules the following tick one period
later; `batch_timer.reset()` (after a size-triggered flush) schedules
the next tick `batch_timeout` after `now` instead.  A tick with an
empty queue does not flush and leaves the queue untouched; a `recv`
pushes the message and flushes (then resets the timer) exactly when the
queue length reaches `batch_size`. -/
def engineStep (batch_size batch_timeout now : Nat) (s : LoopState) :
    LoopEvent → StepOut
  | .tick =>
    if s.queue = [] then
      { state := { queue := s.queue, deadline := s.deadline + batch_timeout }
        flushed := none }
    else
      { state := { queue := [], deadline := s.deadline + batch_timeout }
        flushed := some s.queue }
  | .recv m =>
    let q := s.queue ++ [m]
    if batch_size ≤ q.length then
      { state := { queue := [], deadline := now + batch_timeout }
        flushed := some q }
    else
      { state := { queue := q, deadline := s.deadline }, flushed := none }

/-- `S3StorageWriter::flush` (src/storage/mod.rs:222-225): a no-op
returning `Ok`. -/
def s3_flush : Except StorageError Unit := .ok ()

/-- The drain loop of `EngineCore::shutdown` (src/core.rs:186-188):
`while let Some(message) = self.message_queue.pop()` — `Vec::pop`
removes the *last* element, so the queue is visited back-to-front; each
popped message runs through `process_message` and a failure aborts the
drain (`?`).  Returns the processed messages in processing order,
paired with the spans each one sent to the storage port. -/
def shutdownDrain (storage : List SpanData → Except StorageError Unit)
    (q : List ExportTraceServiceRequest) :
    Except ProcessingError (List (ExportTraceServiceRequest × List SpanData)) :=
  if hq : q = [] then .ok []
  else
    let m := q.getLast hq
    let o := process_message storage m
    match o.result with
    | .error e => .error e
    | .ok _ =>
      match shutdownDrain storage q.dropLast with
      | .error e => .error e
      | .ok rest => .ok ((m, o.sent) :: rest)
termination_by q.length
decreasing_by
  simp only [List.length_dropLast]
  exact Nat.sub_lt (List.length_pos.mpr hq) Nat.one_pos

/-- `EngineCore::shutdown` (src/core.rs:183-193): drain the queue (see
`shutdownDrain`), then call the storage backend's `flush` (whose error
converts via `From<StorageError>`), then return `Ok`. -/
def EngineCore.shutdown (storage : List SpanData → Except StorageError Unit)
    (q : List ExportTraceServiceRequest) :
    Except ProcessingError (List (ExportTraceServiceRequest × List SpanData)) :=
  match shutdownDrain storage q with
  | .error e => .error e
  | .ok processed =>
    match s3_flush with
    | .error e => .error (ProcessingError.ofStorage e)
    | .ok _ => .ok processed

/-- Structural front-to-back companion of `shutdownDrain`, used to
compute with it: `shutdownDrain storage q = drainFwd storage q.reverse`
(`Vec::pop` visits the queue in reverse). -/
def drainFwd (storage : List SpanData → Except StorageError Unit) :
    List ExportTraceServiceRequest →
    Except ProcessingError (List (ExportTraceServiceRequest × List SpanData))
  | [] => .ok []
  | m :: ms =>
    let o := process_message storage m
    match o.result with
    | .error e => .error e
    | .ok _ =>
      match drainFwd storage ms with
      | .error e => .error e
      | .ok rest => .ok ((m, o.sent) :: rest)

/-! ## Reader summary (`src/reader/mod.rs`) -/

/-- `StoredSpan` (src/storage/mod.rs:33-49); times are `u64`
nanoseconds. -/
structure StoredSpan where
  trace_id : String
  span_id : String
  name : String
  kind : String
  start_time : Nat
  end_time : Nat
  status : String
  deriving DecidableEq, Repr

/-- `SpanSummary` (src/reader/mod.rs:21-33). -/
structure SpanSummary where
  trace_id : String
  span_id : String
  name : String
  timestamp : Nat
  duration_ns : Nat
  deriving DecidableEq, Repr

/-- Wrapping `u64` subtraction (release-mode `a - b` on `u64`). -/
def u64_sub (a b : Nat) : Nat :=
  (a + (U64 - b % U64)) % U64

/-- `impl From<StoredSpan> for SpanSummary` (src/reader/mod.rs:35-45).
`duration_ns` is the unchecked `u64` subtraction
`end_time - start_time`. -/
def spanSummaryOfStored (s : StoredSpan) : SpanSummary :=
  { trace_id := s.trace_id
    span_id := s.span_id
    name := s.name
    timestamp := s.start_time
    duration_ns := u64_sub s.end_time s.start_time }

/-! ## Small helpers over the embedding -/

/-- Whether an `Except` is `ok` (Rust `Result::is_ok`). -/
def isOkE {ε α : Type} : Except ε α → Bool
  | .ok _ => true
  | .error _ => false

/-- The spans a request converts to (meaningful when conversion
succeeds). -/
def convertedSpans (r : ExportTraceServiceRequest) : List SpanData :=
  match convert_request_to_spans r with
  | .ok ds => ds
  | .error _ => []

/-- A well-formed wire span: required-length ids, no parent, and — for
claim C9 — non-trivial kind, status, attributes, events and links that
conversion must discard. -/
def wireSpanNamed (nm : String) : Span :=
  { trace_id := List.replicate 15 0 ++ [1]
    span_id := List.replicate 7 0 ++ [2]
    trace_state := ""
    parent_span_id := []
    name := nm
    kind := 2
    start_time_unix_nano := 5
    end_time_unix_nano := 9
    attributes := [("http.method", "GET")]
    events := ["ev"]
    links := ["ln"]
    status := some "STATUS_CODE_ERROR" }

/-- A request carrying one well-formed span. -/
def reqNamed (nm : String) : ExportTraceServiceRequest :=
  { resource_spans := [{ scope_spans := [{ spans := [wireSpanNamed nm] }] }] }

/-- A wire span with a zero-length span id (a required identifier),
whose conversion fails validation. -/
def badSpan : Span :=
  { wireSpanNamed "bad" with span_id := [] }

/-- A request carrying the malformed span. -/
def badReq : ExportTraceServiceRequest :=
  { resource_spans := [{ scope_spans := [{ spans := [badSpan] }] }] }

/-- A wire span whose span id has 4 bytes instead of the required 8. -/
def shortIdSpan : Span :=
  { wireSpanNamed "short" with span_id := [1, 2, 3, 4] }

/-- A storage port whose `write_spans` always fails. -/
def storageFail : List SpanData → Except StorageError Unit :=
  fun _ => .error (.WriteFailed "disk")

/-! ### Claims C4 and C8 -/

/-- C4: starting from a fresh `HealthCheck`, 6 consecutive
`record_failed_write` calls make the snapshot unhealthy with
`failed_writes = 6`; one subsequent `record_successful_write` restores
health and resets `failed_writes` to 0; and any run of at most 5
consecutive failures leaves the snapshot healthy. -/
theorem C4_health_threshold_policy :
    ((HealthCheck.record_failed_write^[6] HealthCheck.new).get_health_status.is_healthy = false
      ∧ (HealthCheck.record_failed_write^[6] HealthCheck.new).get_health_status.failed_writes = 6)
    ∧ (∀ now : Nat,
        (((HealthCheck.record_failed_write^[6] HealthCheck.new).record_successful_write
            now).get_health_status.is_healthy = true
          ∧ ((HealthCheck.record_failed_write^[6] HealthCheck.new).record_successful_write
              now).get_health_status.failed_writes = 0))
    ∧ (∀ n : Nat, n ≤ 5 →
        (HealthCheck.record_failed_write^[n] HealthCheck.new).get_health_status.is_healthy
          = true) := by
  refine ⟨by decide, ?_, ?_⟩
  · intro now
    have h6 : HealthCheck.record_failed_write^[6] HealthCheck.new
        = { is_healthy := false, last_successful_write := 0, message_queue_size := 0,
            total_messages_processed := 0, failed_writes := 6 } := by decide
    rw [h6]
    simp [HealthCheck.record_successful_write, HealthCheck.update_status,
      HealthCheck.get_health_status]
  · intro n hn
    interval_cases n <;> decide

/-- C4 witness: the theorem instantiated at `now = 3` and `n = 3`. -/
theorem C4_health_threshold_policy_witness :
    (((HealthCheck.record_failed_write^[6] HealthCheck.new).record_successful_write
        3).get_health_status.is_healthy = true)
    ∧ (HealthCheck.record_failed_write^[3] HealthCheck.new).get_health_status.is_healthy
        = true :=
  ⟨(C4_health_threshold_policy.2.1 3).1, C4_health_threshold_policy.2.2 3 (by decide)⟩

/-- C8 counterexample: a configuration with `batch_timeout_ms = 0` (and
every field the code does check valid) passes `Config::validate`,
refuting the claim that `validate` rejects every configuration with
`batch_timeout_ms = 0`. -/
theorem C8_zero_timeout_accepted :
    zeroTimeoutConfig.processing.batch_timeout_ms = 0
      ∧ zeroTimeoutConfig.validate = .ok () :=
  ⟨rfl, rfl⟩

/-- C8 (amended): `Config::validate` rejects `batch_size = 0`,
`max_retries = 0` and `max_backoff_ms < initial_backoff_ms`, and accepts
everything else — in particular it performs no check of
`batch_timeout_ms`, so a zero batch timeout is not a startup error. -/
theorem C8_validate_characterization (c : Config) :
    c.validate = .ok () ↔
      (c.processing.batch_size ≠ 0 ∧ c.retry.max_retries ≠ 0
        ∧ c.retry.initial_backoff_ms ≤ c.retry.max_backoff_ms) := by
  unfold Config.validate
  split_ifs with h1 h2 h3 <;> simp_all

/-- C8 witness: the characterization applied to the default-valued
configuration with zero batch timeout. -/
theorem C8_validate_characterization_witness :
    zeroTimeoutConfig.validate = .ok () :=
  (C8_validate_characterization zeroTimeoutConfig).mpr (by decide)

/-! ### Claims C6 and C10 -/

/-- C6 counterexample: with the configured prefix `"messages"`
(src/core.rs:47) and ids 1 and 2, the key actually written is not
`prefix/trace_id/span_id.json` with the prefix appearing exactly once —
`write_spans` prepends the prefix itself and `write`'s `get_full_key`
prepends it again. -/
theorem C6_key_scheme_cex :
    write_spans_key "messages" 1 2
      ≠ "messages" ++ "/" ++ traceIdDisplay 1 ++ "/" ++ spanIdDisplay 2 ++ ".json" := by
  decide

/-- C6 (amended): for every non-empty prefix `P`, the object key under
which a span is written is `trim(P)/P/trace_id/span_id.json`, where
`trim` strips trailing separators: the trailing-stripped prefix is
joined once by `get_full_key` around a key that already starts with the
raw prefix, so the prefix appears twice, not once. -/
theorem C6_key_scheme_amended (pfx : String) (t s : Nat) (h : pfx ≠ "") :
    write_spans_key pfx t s
      = trimEndSlashes pfx ++ "/"
          ++ (pfx ++ "/" ++ traceIdDisplay t ++ "/" ++ spanIdDisplay s ++ ".json") := by
  simp [write_spans_key, get_full_key, h]

/-- C6 witness: the amended key equation at prefix `"messages"`,
trace id 1, span id 2. -/
theorem C6_key_scheme_amended_witness :
    write_spans_key "messages" 1 2
      = trimEndSlashes "messages" ++ "/"
          ++ ("messages" ++ "/" ++ traceIdDisplay 1 ++ "/" ++ spanIdDisplay 2 ++ ".json") :=
  C6_key_scheme_amended "messages" 1 2 (by decide)

/-- C10: for every `StoredSpan` whose `u64` times satisfy
`end_time ≥ start_time`, the (total) conversion to `SpanSummary` yields
`timestamp = start_time` and `duration_ns = end_time - start_time`
(the wrapping subtraction does not underflow), and the id and name
fields are carried over unchanged. -/
theorem C10_stored_span_summary (s : StoredSpan)
    (h1 : s.start_time ≤ s.end_time) (h2 : s.end_time < U64) :
    (spanSummaryOfStored s).timestamp = s.start_time
      ∧ (spanSummaryOfStored s).duration_ns = s.end_time - s.start_time
      ∧ (spanSummaryOfStored s).trace_id = s.trace_id
      ∧ (spanSummaryOfStored s).span_id = s.span_id
      ∧ (spanSummaryOfStored s).name = s.name := by
  have hU : U64 = 18446744073709551616 := by norm_num [U64]
  refine ⟨rfl, ?_, rfl, rfl, rfl⟩
  simp only [spanSummaryOfStored, u64_sub, hU]
  omega

/-- C10 witness: the summary of a concrete stored span with
`start_time = 10`, `end_time = 25`. -/
theorem C10_stored_span_summary_witness :
    (spanSummaryOfStored
        { trace_id := "t", span_id := "s", name := "op", kind := "Client",
          start_time := 10, end_time := 25, status := "Ok" }).duration_ns = 15 :=
  (C10_stored_span_summary
    { trace_id := "t", span_id := "s", name := "op", kind := "Client",
      start_time := 10, end_time := 25, status := "Ok" }
    (by norm_num) (by norm_num [U64])).2.1

/-! ### Claims C9 and C3 -/

/-- C9 counterexample: the attributes map of a successfully converted
span has eviction limit 0, not 128 — `EvictedHashMap::new` takes the
eviction limit as its *first* argument and src/core.rs:160 passes
`Default::default()` (= 0 for `u32`) there, 128 being only the
pre-allocation size. -/
theorem C9_attributes_eviction_zero_cex :
    ((convert_span (wireSpanNamed "w")).toOption.map
        (fun d => d.attributes.max_len) = some 0)
      ∧ (0 : Nat) ≠ 128 := by
  decide

/-- C9 (amended): every successfully converted wire span yields a
`SpanData` whose kind is `Client` and status is `Ok` regardless of the
wire span's own `kind`/`status`, and whose attributes, events and
links are freshly created empty collections — the event and link
queues with eviction capacity 128, while the attributes map is built
by `EvictedHashMap::new(Default::default(), 128)` and so has eviction
capacity 0 (128 is only its allocation size); wire attributes, events
and links are discarded. -/
theorem C9_convert_span_hardcodes_fields_amended (s : Span) (d : SpanData)
    (h : convert_span s = .ok d) :
    d.span_kind = .Client ∧ d.status = .Ok
      ∧ d.attributes = EvictedHashMap.new 0 128
      ∧ d.events = EvictedQueue.new 128
      ∧ d.links = EvictedQueue.new 128
      ∧ d.attributes.entries = [] ∧ d.events.queue = [] ∧ d.links.queue = []
      ∧ d.attributes.max_len = 0 ∧ d.events.max_len = 128
      ∧ d.links.max_len = 128 := by
  unfold convert_span at h
  split at h
  · exact absurd h (by simp)
  · split at h
    · exact absurd h (by simp)
    · injection h with h
      subst h
      exact ⟨rfl, rfl, rfl, rfl, rfl, rfl, rfl, rfl, rfl, rfl, rfl⟩

/-- C9 witness: the wire span named `"w"` carries kind 2, an error
status, an attribute, an event and a link; its conversion succeeds and
the amended theorem applies. -/
theorem C9_convert_span_hardcodes_fields_amended_witness :
    (convert_span (wireSpanNamed "w")).isOk = true
      ∧ ((convert_span (wireSpanNamed "w")).toOption.map SpanData.span_kind
          = some SpanKind.Client) := by
  have h : convert_span (wireSpanNamed "w")
      = .ok { span_context :=
                { trace_id := 1, span_id := 2, trace_flags := 0,
                  is_remote := false, trace_state := "" }
              parent_span_id := SpanId.INVALID
              span_kind := .Client
              name := "w"
              start_time := 5
              end_time := 9
              attributes := EvictedHashMap.new 0 128
              events := EvictedQueue.new 128
              links := EvictedQueue.new 128
              status := .Ok
              resource := ()
              instrumentation_lib := () } := by decide
  have hk := (C9_convert_span_hardcodes_fields_amended (wireSpanNamed "w") _ h).1
  rw [h]
  exact ⟨rfl, by simp [Except.toOption, hk]⟩

/-- C3: one step of the batching loop — appending a received item that
makes the queue length reach `batch_size` drains the queue into a flush
and resets the timer so the next tick is one full `batch_timeout` after
the flush instant `now`; a tick with a non-empty queue flushes the
queue; a tick with an empty queue flushes nothing and leaves the queue
untouched (the timer merely keeps its periodic cadence). -/
theorem C3_flush_triggers (batch_size batch_timeout now : Nat)
    (s : LoopState) (m : ExportTraceServiceRequest) :
    (s.queue.length + 1 = batch_size →
        engineStep batch_size batch_timeout now s (.recv m)
          = { state := { queue := [], deadline := now + batch_timeout }
              flushed := some (s.queue ++ [m]) })
    ∧ (s.queue ≠ [] →
        engineStep batch_size batch_timeout now s .tick
          = { state := { queue := [], deadline := s.deadline + batch_timeout }
              flushed := some s.queue })
    ∧ (s.queue = [] →
        engineStep batch_size batch_timeout now s .tick
          = { state := { queue := s.queue, deadline := s.deadline + batch_timeout }
              flushed := none }) := by
  refine ⟨?_, ?_, ?_⟩
  · intro h
    simp only [engineStep]
    rw [if_pos (by simp [← h])]
  · intro h
    simp only [engineStep]
    rw [if_neg h]
  · intro h
    simp only [engineStep]
    rw [if_pos h]

/-- C3 witness: the three cases at `batch_size = 2`,
`batch_timeout = 7`, `now = 40`, a one-element queue with deadline 10,
and an empty queue. -/
theorem C3_flush_triggers_witness :
    (engineStep 2 7 40 { queue := [reqNamed "a"], deadline := 10 } (.recv (reqNamed "b"))
        = { state := { queue := [], deadline := 47 }
            flushed := some [reqNamed "a", reqNamed "b"] })
    ∧ (engineStep 2 7 40 { queue := [reqNamed "a"], deadline := 10 } .tick
        = { state := { queue := [], deadline := 17 }
            flushed := some [reqNamed "a"] })
    ∧ (engineStep 2 7 40 { queue := [], deadline := 10 } .tick
        = { state := { queue := [], deadline := 17 }, flushed := none }) :=
  ⟨(C3_flush_triggers 2 7 40 { queue := [reqNamed "a"], deadline := 10 } (reqNamed "b")).1
      (by decide),
   (C3_flush_triggers 2 7 40 { queue := [reqNamed "a"], deadline := 10 } (reqNamed "b")).2.1
      (by decide),
   (C3_flush_triggers 2 7 40 { queue := [], deadline := 10 } (reqNamed "b")).2.2 rfl⟩

/-! ### Helper lemmas about conversion and processing -/

/-- `parseParent` only fails with a `ValidationError`. -/
theorem parseParent_error_validation (s : Span) (e : ProcessingError)
    (h : parseParent s = .error e) : ∃ msg, e = .ValidationError msg := by
  unfold parseParent at h
  split at h
  · split at h
    · injection h with h
      exact ⟨_, h.symm⟩
    · exact absurd h (by simp)
  · exact absurd h (by simp)

/-- `create_span_context` only fails with a `ValidationError`. -/
theorem create_span_context_error_validation (s : Span) (e : ProcessingError)
    (h : create_span_context s = .error e) : ∃ msg, e = .ValidationError msg := by
  unfold create_span_context at h
  split at h
  · injection h with h
    exact ⟨_, h.symm⟩
  · split at h
    · injection h with h
      exact ⟨_, h.symm⟩
    · exact absurd h (by simp)

/-- `convert_span` only fails with a `ValidationError`. -/
theorem convert_span_error_validation (s : Span) (e : ProcessingError)
    (h : convert_span s = .error e) : ∃ msg, e = .ValidationError msg := by
  unfold convert_span at h
  split at h
  next heq =>
    injection h with h
    subst h
    exact parseParent_error_validation s _ heq
  next =>
    split at h
    next heq =>
      injection h with h
      subst h
      exact create_span_context_error_validation s _ heq
    next => exact absurd h (by simp)

/-- `convertSpansList` only fails with a `ValidationError`. -/
theorem convertSpansList_error_validation (ss : List Span) (e : ProcessingError)
    (h : convertSpansList ss = .error e) : ∃ msg, e = .ValidationError msg := by
  induction ss with
  | nil => exact absurd h (by simp [convertSpansList])
  | cons s rest ih =>
    unfold convertSpansList at h
    split at h
    next heq =>
      injection h with h
      subst h
      exact convert_span_error_validation s _ heq
    next =>
      split at h
      next heq =>
        injection h with h
        subst h
        exact ih heq
      next => exact absurd h (by simp)

/-- `convert_request_to_spans` only fails with a `ValidationError`. -/
theorem convert_request_error_validation (r : ExportTraceServiceRequest)
    (e : ProcessingError) (h : convert_request_to_spans r = .error e) :
    ∃ msg, e = .ValidationError msg :=
  convertSpansList_error_validation _ _ h

/-- With an always-succeeding storage port, a message that converts
successfully is fully processed: result `Ok`, its spans sent, one
success signal recorded. -/
theorem process_message_storageOk_of_ok (m : ExportTraceServiceRequest)
    (h : isOkE (convert_request_to_spans m) = true) :
    process_message storageOk m
      = { result := .ok (), sent := convertedSpans m,
          health := [HealthEvent.success] } := by
  unfold process_message convertedSpans storageOk
  cases hc : convert_request_to_spans m with
  | error e => rw [hc] at h; exact absurd h (by simp [isOkE])
  | ok ds => rfl

/-- A message that fails conversion produces an error outcome with
nothing sent to storage and no health signal. -/
theorem process_message_of_convert_error (m : ExportTraceServiceRequest)
    (storage : List SpanData → Except StorageError Unit) (e : ProcessingError)
    (hc : convert_request_to_spans m = .error e) :
    process_message storage m = { result := .error e, sent := [], health := [] } := by
  unfold process_message
  rw [hc]

/-! ### Claims C2 and C5 -/

/-- C2 counterexample: a message failing conversion (zero-length span
id) and a message failing its storage write both yield an error result
while the engine makes no Health Aggregator call at all — in
particular `record_failed_write` is never invoked. -/
theorem C2_failure_signal_missing_cex :
    isOkE (process_message storageOk badReq).result = false
      ∧ (process_message storageOk badReq).health = []
      ∧ isOkE (process_message storageFail (reqNamed "a")).result = false
      ∧ (process_message storageFail (reqNamed "a")).health = [] := by
  decide

/-- C2 (amended): on a successful item the engine records exactly one
success signal (`record_successful_write`); on a conversion or storage
failure it records nothing — the failure is only logged/propagated, and
`record_failed_write` is never called by the engine. -/
theorem C2_health_signal_policy
    (storage : List SpanData → Except StorageError Unit)
    (req : ExportTraceServiceRequest) :
    (isOkE (process_message storage req).result = true →
        (process_message storage req).health = [HealthEvent.success])
    ∧ (isOkE (process_message storage req).result = false →
        (process_message storage req).health = [])
    ∧ HealthEvent.failure ∉ (process_message storage req).health := by
  unfold process_message
  cases hc : convert_request_to_spans req with
  | error e => simp [isOkE]
  | ok ds =>
    cases hs : storage ds with
    | error e => simp [isOkE, hs]
    | ok u => simp [isOkE, hs]

/-- C2 witness: the success half at a concrete well-formed message. -/
theorem C2_health_signal_policy_witness :
    (process_message storageOk (reqNamed "a")).health = [HealthEvent.success] :=
  (C2_health_signal_policy storageOk (reqNamed "a")).1 (by decide)

/-- C5: a batch of `N` messages in which exactly one fails conversion
(the other `N-1` being well-formed) processes all `N` messages: the
`N-1` good ones are written to storage (result `Ok`, spans sent,
success recorded), exactly one outcome is a failure, and that failure
is a `ValidationError` — the batch is not aborted. -/
theorem C5_single_bad_item_isolated (l1 l2 : List ExportTraceServiceRequest)
    (bad : ExportTraceServiceRequest)
    (h1 : ∀ m ∈ l1, isOkE (convert_request_to_spans m) = true)
    (h2 : ∀ m ∈ l2, isOkE (convert_request_to_spans m) = true)
    (hb : isOkE (convert_request_to_spans bad) = false) :
    (process_batch storageOk (l1 ++ bad :: l2)).length = l1.length + 1 + l2.length
    ∧ (∀ m ∈ l1 ++ l2,
        process_message storageOk m
          = { result := .ok (), sent := convertedSpans m,
              health := [HealthEvent.success] })
    ∧ (process_batch storageOk (l1 ++ bad :: l2)).countP
        (fun o => isOkE o.result) = l1.length + l2.length
    ∧ (process_batch storageOk (l1 ++ bad :: l2)).countP
        (fun o => !isOkE o.result) = 1
    ∧ (∃ msg, (process_message storageOk bad).result
        = .error (.ValidationError msg)) := by
  obtain ⟨e, he⟩ : ∃ e, convert_request_to_spans bad = .error e := by
    cases hc : convert_request_to_spans bad with
    | error e => exact ⟨e, rfl⟩
    | ok ds => rw [hc] at hb; exact absurd hb (by simp [isOkE])
  obtain ⟨msg, hmsg⟩ := convert_request_error_validation bad e he
  subst hmsg
  have hbadpm := process_message_of_convert_error bad storageOk _ he
  have hgood : ∀ m ∈ l1 ++ l2,
      process_message storageOk m
        = { result := .ok (), sent := convertedSpans m,
            health := [HealthEvent.success] } := by
    intro m hm
    rcases List.mem_append.mp hm with hm1 | hm2
    · exact process_message_storageOk_of_ok m (h1 m hm1)
    · exact process_message_storageOk_of_ok m (h2 m hm2)
  refine ⟨?_, hgood, ?_, ?_, ⟨msg, by rw [hbadpm]⟩⟩
  · simp [process_batch]
    omega
  · simp only [process_batch, List.countP_map, List.countP_append, List.countP_cons]
    have c1 : l1.countP
        (fun m => isOkE (process_message storageOk m).result) = l1.length := by
      rw [List.countP_eq_length]
      intro m hm
      rw [process_message_storageOk_of_ok m (h1 m hm)]
      rfl
    have c2 : l2.countP
        (fun m => isOkE (process_message storageOk m).result) = l2.length := by
      rw [List.countP_eq_length]
      intro m hm
      rw [process_message_storageOk_of_ok m (h2 m hm)]
      rfl
    have cb : isOkE (process_message storageOk bad).result = false := by
      rw [hbadpm]
      rfl
    simp only [Function.comp_def]
    rw [c1, c2]
    simp [cb]
  · simp only [process_batch, List.countP_map, List.countP_append, List.countP_cons]
    have c1 : l1.countP
        (fun m => !isOkE (process_message storageOk m).result) = 0 := by
      rw [List.countP_eq_zero]
      intro m hm
      rw [process_message_storageOk_of_ok m (h1 m hm)]
      simp [isOkE]
    have c2 : l2.countP
        (fun m => !isOkE (process_message storageOk m).result) = 0 := by
      rw [List.countP_eq_zero]
      intro m hm
      rw [process_message_storageOk_of_ok m (h2 m hm)]
      simp [isOkE]
    have cb : (!isOkE (process_message storageOk bad).result) = true := by
      rw [hbadpm]
      rfl
    simp only [Function.comp_def]
    rw [c1, c2]
    simp [cb]

/-- C5 witness: two well-formed messages around the malformed one;
both good ones succeed, exactly one outcome fails. -/
theorem C5_single_bad_item_isolated_witness :
    (process_batch storageOk [reqNamed "g1", badReq, reqNamed "g2"]).countP
        (fun o => isOkE o.result) = 2
      ∧ (process_batch storageOk [reqNamed "g1", badReq, reqNamed "g2"]).countP
          (fun o => !isOkE o.result) = 1 :=
  ⟨(C5_single_bad_item_isolated [reqNamed "g1"] [reqNamed "g2"] badReq
      (by decide) (by decide) (by decide)).2.2.1,
   (C5_single_bad_item_isolated [reqNamed "g1"] [reqNamed "g2"] badReq
      (by decide) (by decide) (by decide)).2.2.2.1⟩

/-! ### Claim C1 -/

/-- The `while let Some(m) = queue.pop()` drain equals a front-to-back
walk over the reversed queue. -/
theorem shutdownDrain_eq_drainFwd
    (storage : List SpanData → Except StorageError Unit)
    (q : List ExportTraceServiceRequest) :
    shutdownDrain storage q = drainFwd storage q.reverse := by
  induction q using List.reverseRecOn with
  | nil =>
    rw [shutdownDrain]
    rfl
  | append_singleton l a ih =>
    rw [shutdownDrain]
    have hne : l ++ [a] ≠ [] := by simp
    rw [dif_neg hne]
    have hlast : (l ++ [a]).getLast hne = a := List.getLast_append_singleton l
    have hdrop : (l ++ [a]).dropLast = l := by
      simp
    have hrev : (l ++ [a]).reverse = a :: l.reverse := by
      simp
    rw [hlast, hdrop, ih, hrev]
    rfl

/-- A successful `drainFwd` run processed exactly its input messages in
order, sending each one's spans, and every one of them succeeded. -/
theorem drainFwd_ok (storage : List SpanData → Except StorageError Unit)
    (ms : List ExportTraceServiceRequest)
    (l : List (ExportTraceServiceRequest × List SpanData))
    (h : drainFwd storage ms = .ok l) :
    l = ms.map (fun m => (m, (process_message storage m).sent))
      ∧ ∀ m ∈ ms, (process_message storage m).result = .ok () := by
  induction ms generalizing l with
  | nil =>
    simp only [drainFwd] at h
    injection h with h
    subst h
    simp
  | cons m ms ih =>
    simp only [drainFwd] at h
    cases hr : (process_message storage m).result with
    | error e => rw [hr] at h; cases h
    | ok u =>
      rw [hr] at h
      cases hd : drainFwd storage ms with
      | error e => rw [hd] at h; cases h
      | ok rest =>
        rw [hd] at h
        injection h with h
        subst h
        obtain ⟨h1, h2⟩ := ih rest hd
        subst h1
        refine ⟨rfl, ?_⟩
        intro x hx
        rcases List.mem_cons.mp hx with hx | hx
        · subst hx
          cases u
          exact hr
        · exact h2 x hx

/-- C1 counterexample: with queue `[a, b]` (arrival order `a` then
`b`), `EngineCore::shutdown` processes `b` first — `Vec::pop` drains
the queue in reverse arrival order, not arrival order. -/
theorem C1_arrival_order_cex :
    (EngineCore.shutdown storageOk [reqNamed "a", reqNamed "b"]).map
        (fun l => l.map Prod.fst)
      = .ok [reqNamed "b", reqNamed "a"]
    ∧ [reqNamed "b", reqNamed "a"] ≠ [reqNamed "a", reqNamed "b"] := by
  constructor
  · simp only [EngineCore.shutdown, shutdownDrain_eq_drainFwd]
    decide
  · decide

/-- C1 (amended): when `EngineCore::shutdown` reports success it has
processed every queued item — in reverse arrival order (last enqueued
first), since `Vec::pop` takes from the back — sending each item's
converted spans to the storage port, each with a successful result, and
the storage backend's `flush` (a no-op `Ok` for the S3 writer) has run
before `Ok` is returned; no queued item is left unprocessed. -/
theorem C1_shutdown_reverse_drain
    (storage : List SpanData → Except StorageError Unit)
    (q : List ExportTraceServiceRequest)
    (l : List (ExportTraceServiceRequest × List SpanData))
    (h : EngineCore.shutdown storage q = .ok l) :
    l = q.reverse.map (fun m => (m, (process_message storage m).sent))
      ∧ ∀ m ∈ q, (process_message storage m).result = .ok () := by
  unfold EngineCore.shutdown at h
  cases hd : shutdownDrain storage q with
  | error e => rw [hd] at h; cases h
  | ok p =>
    rw [hd] at h
    have hp : p = l := by
      simpa [s3_flush] using h
    subst hp
    rw [shutdownDrain_eq_drainFwd] at hd
    obtain ⟨h1, h2⟩ := drainFwd_ok storage q.reverse p hd
    exact ⟨h1, fun m hm => h2 m (List.mem_reverse.mpr hm)⟩

/-- C1 witness: the amended theorem applied to the concrete queue
`[a, b]`, whose successful drain is `[b, a]` with each item's spans. -/
theorem C1_shutdown_reverse_drain_witness :
    EngineCore.shutdown storageOk [reqNamed "a", reqNamed "b"]
        = .ok [(reqNamed "b", convertedSpans (reqNamed "b")),
               (reqNamed "a", convertedSpans (reqNamed "a"))]
      ∧ [(reqNamed "b", convertedSpans (reqNamed "b")),
         (reqNamed "a", convertedSpans (reqNamed "a"))]
        = [reqNamed "a", reqNamed "b"].reverse.map
            (fun m => (m, (process_message storageOk m).sent)) := by
  have hsd : EngineCore.shutdown storageOk [reqNamed "a", reqNamed "b"]
      = .ok [(reqNamed "b", convertedSpans (reqNamed "b")),
             (reqNamed "a", convertedSpans (reqNamed "a"))] := by
    simp only [EngineCore.shutdown, shutdownDrain_eq_drainFwd]
    decide
  exact ⟨hsd, (C1_shutdown_reverse_drain storageOk _ _ hsd).1⟩

/-! ### Claim C7: hex round-trip lemmas -/

/-- `hexDigitVal` inverts `Nat.digitChar` on hex digit values. -/
theorem hexDigitVal_digitChar (d : Nat) (h : d < 16) :
    hexDigitVal (Nat.digitChar d) = some d := by
  interval_cases d <;> decide

/-- Hex digit characters are never the sign character. -/
theorem digitChar_ne_plus (d : Nat) (h : d < 16) : Nat.digitChar d ≠ '+' := by
  interval_cases d <;> decide

/-- `stripPlus` keeps a list not starting with `+`. -/
theorem stripPlus_cons (c : Char) (cs : List Char) (h : c ≠ '+') :
    stripPlus (c :: cs) = c :: cs := by
  unfold stripPlus
  split
  next heq =>
    injection heq with h1 h2
    exact absurd h1 h
  next => rfl

/-- Byte sequences have big-endian values below `256 ^ length`. -/
theorem beVal_lt (bs : List Nat) (hb : ∀ b ∈ bs, b < 256) :
    beVal bs < 256 ^ bs.length := by
  induction bs with
  | nil => simp [beVal]
  | cons b bs ih =>
    have hb0 : b < 256 := hb b (by simp)
    have htl : beVal bs < 256 ^ bs.length := ih (fun x hx => hb x (by simp [hx]))
    have : b * 256 ^ bs.length + beVal bs < (b + 1) * 256 ^ bs.length := by
      calc b * 256 ^ bs.length + beVal bs
          < b * 256 ^ bs.length + 256 ^ bs.length := by omega
        _ = (b + 1) * 256 ^ bs.length := by ring
    calc beVal (b :: bs) = b * 256 ^ bs.length + beVal bs := by simp [beVal]
      _ < (b + 1) * 256 ^ bs.length := this
      _ ≤ 256 * 256 ^ bs.length := by
          exact Nat.mul_le_mul_right _ (by omega)
      _ = 256 ^ (b :: bs).length := by
          simp [List.length_cons, pow_succ]
          ring

/-- `beVal` is injective on equal-length byte sequences. -/
theorem beVal_inj (as bs : List Nat) (hlen : as.length = bs.length)
    (ha : ∀ b ∈ as, b < 256) (hb : ∀ b ∈ bs, b < 256)
    (h : beVal as = beVal bs) : as = bs := by
  induction as generalizing bs with
  | nil =>
    cases bs with
    | nil => rfl
    | cons b bs => simp at hlen
  | cons a as ih =>
    cases bs with
    | nil => simp at hlen
    | cons b bs =>
      have hlen' : as.length = bs.length := by simpa using hlen
      have hata : beVal as < 256 ^ as.length :=
        beVal_lt as (fun x hx => ha x (by simp [hx]))
      have hbtb : beVal bs < 256 ^ bs.length :=
        beVal_lt bs (fun x hx => hb x (by simp [hx]))
      have hP : beVal as < 256 ^ bs.length := by rw [← hlen']; exact hata
      have hkey : a * 256 ^ bs.length + beVal as = b * 256 ^ bs.length + beVal bs := by
        have := h
        simp only [beVal, hlen'] at this
        exact this
      have hab : a = b := by
        rcases Nat.lt_trichotomy a b with hlt | heq | hgt
        · exfalso
          have : (a + 1) * 256 ^ bs.length ≤ b * 256 ^ bs.length :=
            Nat.mul_le_mul_right _ (by omega)
          have hexp : (a + 1) * 256 ^ bs.length = a * 256 ^ bs.length + 256 ^ bs.length := by
            ring
          omega
        · exact heq
        · exfalso
          have : (b + 1) * 256 ^ bs.length ≤ a * 256 ^ bs.length :=
            Nat.mul_le_mul_right _ (by omega)
          have hexp : (b + 1) * 256 ^ bs.length = b * 256 ^ bs.length + 256 ^ bs.length := by
            ring
          omega
      subst hab
      have htails : beVal as = beVal bs := by omega
      rw [ih bs hlen' (fun x hx => ha x (by simp [hx]))
        (fun x hx => hb x (by simp [hx])) htails]

/-- Parsing the hex encoding of a byte sequence accumulates its
big-endian value, provided the final value stays below `bound`. -/
theorem parseHexAcc_encode (bound : Nat) (bs : List Nat) :
    ∀ acc : Nat, (∀ b ∈ bs, b < 256) →
      acc * 256 ^ bs.length + beVal bs < bound →
      parseHexAcc bound ((bs.map hexEncodeByte).flatten) acc
        = .ok (acc * 256 ^ bs.length + beVal bs) := by
  induction bs with
  | nil =>
    intro acc _ _
    simp [parseHexAcc, beVal]
  | cons b bs ih =>
    intro acc hb hlt
    have hb0 : b < 256 := hb b (by simp)
    have hdiv : b / 16 < 16 := by omega
    have hmod16 : b / 16 % 16 = b / 16 := Nat.mod_eq_of_lt hdiv
    have hbmod : b % 16 < 16 := Nat.mod_lt _ (by norm_num)
    have hP : (1 : Nat) ≤ 256 ^ bs.length := Nat.one_le_pow _ _ (by norm_num)
    have htot : acc * 256 ^ (b :: bs).length + beVal (b :: bs)
        = (acc * 256 + b) * 256 ^ bs.length + beVal bs := by
      simp only [beVal, List.length_cons, pow_succ]
      ring
    have hacc2 : acc * 256 + b < bound := by
      have h1 : acc * 256 + b ≤ (acc * 256 + b) * 256 ^ bs.length :=
        Nat.le_mul_of_pos_right _ (by positivity)
      have h2 : (acc * 256 + b) * 256 ^ bs.length + beVal bs < bound := by
        rw [← htot]
        exact hlt
      omega
    have hacc1 : acc * 16 + b / 16 < bound := by
      have hdm : (acc * 16 + b / 16) * 16 + b % 16 = acc * 256 + b := by omega
      omega
    have hstep2 : (acc * 16 + b / 16) * 16 + b % 16 = acc * 256 + b := by omega
    simp only [List.map_cons, List.flatten_cons, hexEncodeByte, List.cons_append,
      List.nil_append]
    rw [parseHexAcc, hmod16, hexDigitVal_digitChar _ hdiv]
    simp only [if_pos hacc1]
    rw [parseHexAcc, hexDigitVal_digitChar _ hbmod]
    simp only [hstep2, if_pos hacc2]
    rw [ih (acc * 256 + b) (fun x hx => hb x (by simp [hx])) (by rw [← htot]; exact hlt)]
    rw [htot]

/-- `uN::from_str_radix(hex::encode(bytes), 16)` recovers the
big-endian value of a non-empty byte sequence whose value fits. -/
theorem from_str_radix16_encode (bound : Nat) (bs : List Nat) (hne : bs ≠ [])
    (hb : ∀ b ∈ bs, b < 256) (hlt : beVal bs < bound) :
    from_str_radix16 bound (hexEncode bs) = .ok (beVal bs) := by
  cases bs with
  | nil => exact absurd rfl hne
  | cons b bs' =>
    have hb0 : b < 256 := hb b (by simp)
    have hdiv : b / 16 < 16 := by omega
    have hmod16 : b / 16 % 16 = b / 16 := Nat.mod_eq_of_lt hdiv
    unfold from_str_radix16 hexEncode
    simp only [List.map_cons, List.flatten_cons, hexEncodeByte, List.cons_append,
      List.nil_append]
    rw [stripPlus_cons _ _ (by rw [hmod16]; exact digitChar_ne_plus _ hdiv)]
    rw [if_neg (by simp)]
    have := parseHexAcc_encode bound (b :: bs') 0 hb (by simpa using hlt)
    simp only [List.map_cons, List.flatten_cons, hexEncodeByte, List.cons_append,
      List.nil_append, Nat.zero_mul, Nat.zero_add] at this
    simpa using this

/-- `TraceId::from_hex(hex::encode(bytes))` on a 16-byte trace id
recovers the big-endian value. -/
theorem traceId_from_hex_encode (bs : List Nat) (hlen : bs.length = 16)
    (hb : ∀ b ∈ bs, b < 256) :
    TraceId.from_hex (hexEncode bs) = .ok (beVal bs) := by
  unfold TraceId.from_hex
  apply from_str_radix16_encode
  · intro hnil
    rw [hnil] at hlen
    simp at hlen
  · exact hb
  · have h := beVal_lt bs hb
    rw [hlen] at h
    calc beVal bs < 256 ^ 16 := h
      _ ≤ 2 ^ 128 := by norm_num

/-- `SpanId::from_hex(hex::encode(bytes))` on an 8-byte span id
recovers the big-endian value. -/
theorem spanId_from_hex_encode (bs : List Nat) (hlen : bs.length = 8)
    (hb : ∀ b ∈ bs, b < 256) :
    SpanId.from_hex (hexEncode bs) = .ok (beVal bs) := by
  unfold SpanId.from_hex
  apply from_str_radix16_encode
  · intro hnil
    rw [hnil] at hlen
    simp at hlen
  · exact hb
  · have h := beVal_lt bs hb
    rw [hlen] at h
    calc beVal bs < 256 ^ 8 := h
      _ ≤ 2 ^ 64 := by norm_num

/-- C7 counterexample: a wire span whose span id has 4 bytes — not a
valid identifier of the required length 8 — converts *successfully*
(to the zero-extended value `0x01020304`), refuting the claim that
every wrong-length identifier yields a validation error. -/
theorem C7_short_id_accepted_cex :
    shortIdSpan.span_id.length = 4
      ∧ (convert_span shortIdSpan).isOk = true
      ∧ ((convert_span shortIdSpan).toOption.map
            (fun d => d.span_context.span_id) = some 16909060) := by
  decide

/-- C7 (amended): span conversion returns a validation error for empty
identifiers (and for values overflowing the id width), but identifiers
*shorter* than the required length are accepted, their bytes read as a
zero-extended big-endian value; an empty parent-span-id maps to
`SpanId::INVALID` rather than an error; and required-length
identifiers convert successfully and losslessly — the hex round-trip
is injective on 16-byte trace ids and 8-byte span ids. -/
theorem C7_identifier_validation_amended :
    (∀ s : Span, s.parent_span_id = [] →
        s.trace_id.length = 16 → (∀ b ∈ s.trace_id, b < 256) →
        s.span_id.length = 8 → (∀ b ∈ s.span_id, b < 256) →
        convert_span s = .ok
          { span_context :=
              { trace_id := beVal s.trace_id, span_id := beVal s.span_id,
                trace_flags := 0, is_remote := false, trace_state := "" }
            parent_span_id := SpanId.INVALID
            span_kind := .Client
            name := s.name
            start_time := s.start_time_unix_nano
            end_time := s.end_time_unix_nano
            attributes := EvictedHashMap.new 0 128
            events := EvictedQueue.new 128
            links := EvictedQueue.new 128
            status := .Ok
            resource := ()
            instrumentation_lib := () })
    ∧ (∀ s : Span, s.parent_span_id = [] → s.trace_id = [] →
        convert_span s
          = .error (.ValidationError "cannot parse integer from empty string"))
    ∧ (∀ t1 t2 : List Nat, t1.length = 16 → t2.length = 16 →
        (∀ b ∈ t1, b < 256) → (∀ b ∈ t2, b < 256) →
        TraceId.from_hex (hexEncode t1) = TraceId.from_hex (hexEncode t2) →
        t1 = t2)
    ∧ (∀ t1 t2 : List Nat, t1.length = 8 → t2.length = 8 →
        (∀ b ∈ t1, b < 256) → (∀ b ∈ t2, b < 256) →
        SpanId.from_hex (hexEncode t1) = SpanId.from_hex (hexEncode t2) →
        t1 = t2) := by
  refine ⟨?_, ?_, ?_, ?_⟩
  · intro s hpar hlt hbt hls hbs
    have hpp : parseParent s = .ok SpanId.INVALID := by
      simp [parseParent, hpar]
    have htr := traceId_from_hex_encode s.trace_id hlt hbt
    have hsp := spanId_from_hex_encode s.span_id hls hbs
    have hctx : create_span_context s
        = .ok { trace_id := beVal s.trace_id, span_id := beVal s.span_id,
                trace_flags := 0, is_remote := false, trace_state := "" } := by
      unfold create_span_context
      rw [htr, hsp]
    unfold convert_span
    rw [hpp, hctx]
  · intro s hpar hnil
    have hpp : parseParent s = .ok SpanId.INVALID := by
      simp [parseParent, hpar]
    have hemp : TraceId.from_hex (hexEncode ([] : List Nat))
        = .error "cannot parse integer from empty string" := rfl
    have hctx : create_span_context s
        = .error (.ValidationError "cannot parse integer from empty string") := by
      unfold create_span_context
      rw [hnil, hemp]
    unfold convert_span
    rw [hpp, hctx]
  · intro t1 t2 h1 h2 hb1 hb2 heq
    rw [traceId_from_hex_encode t1 h1 hb1, traceId_from_hex_encode t2 h2 hb2] at heq
    injection heq with heq
    exact beVal_inj t1 t2 (by omega) hb1 hb2 heq
  · intro t1 t2 h1 h2 hb1 hb2 heq
    rw [spanId_from_hex_encode t1 h1 hb1, spanId_from_hex_encode t2 h2 hb2] at heq
    injection heq with heq
    exact beVal_inj t1 t2 (by omega) hb1 hb2 heq

/-- C7 witness: the amended theorem's success case at the concrete
well-formed wire span named `"w"`. -/
theorem C7_identifier_validation_amended_witness :
    convert_span (wireSpanNamed "w")
      = .ok { span_context :=
                { trace_id := beVal (wireSpanNamed "w").trace_id,
                  span_id := beVal (wireSpanNamed "w").span_id,
                  trace_flags := 0, is_remote := false, trace_state := "" }
              parent_span_id := SpanId.INVALID
              span_kind := .Client
              name := (wireSpanNamed "w").name
              start_time := (wireSpanNamed "w").start_time_unix_nano
              end_time := (wireSpanNamed "w").end_time_unix_nano
              attributes := EvictedHashMap.new 0 128
              events := EvictedQueue.new 128
              links := EvictedQueue.new 128
              status := .Ok
              resource := ()
              instrumentation_lib := () } :=
  C7_identifier_validation_amended.1 (wireSpanNamed "w") rfl (by decide) (by decide)
    (by decide) (by decide)

end StorageEngine
